import Mathlib

/-!
Verification development for the browser-side entity-modal controller in
src/companies/static/js/script.js. The JavaScript is shallowly embedded:
DOM form controls become a FormField structure carrying the attributes the
code reads, strings are Lean strings over their character lists, and the
event handlers become pure functions from the relevant inputs to explicit
outcome values. Every definition follows the source line by line; the
comments name the source function and lines it embeds.
-/

/-! ## Character and string utilities shared by the embedded functions -/

/-- Digit test for the regex class backslash-d in JavaScript: exactly the
ASCII digits 0 to 9 (code points 48 to 57). -/
def isDig (c : Char) : Bool := decide (48 ≤ c.toNat ∧ c.toNat ≤ 57)

/-- Numeric value of an ASCII digit character. -/
def dval (c : Char) : Nat := c.toNat - 48

/-- The JavaScript whitespace class (regex backslash-s and the characters
removed by String.prototype.trim): tab, LF, VT, FF, CR, space, NBSP, and
the Unicode space separators plus line and paragraph separators, narrow
no-break space, medium mathematical space, ideographic space and BOM. -/
def jsWhitespace (c : Char) : Bool :=
  decide (c.toNat = 9 ∨ c.toNat = 10 ∨ c.toNat = 11 ∨ c.toNat = 12 ∨ c.toNat = 13 ∨
    c.toNat = 32 ∨ c.toNat = 160 ∨ c.toNat = 0x1680 ∨
    (0x2000 ≤ c.toNat ∧ c.toNat ≤ 0x200a) ∨ c.toNat = 0x2028 ∨ c.toNat = 0x2029 ∨
    c.toNat = 0x202f ∨ c.toNat = 0x205f ∨ c.toNat = 0x3000 ∨ c.toNat = 0xfeff)

/-- List-level model of String.prototype.trim: drop JavaScript whitespace
from both ends. -/
def jsTrimList (l : List Char) : List Char :=
  ((l.dropWhile jsWhitespace).reverse.dropWhile jsWhitespace).reverse

/-- String-level model of String.prototype.trim. -/
def jsTrim (s : String) : String := ⟨jsTrimList s.data⟩

/-- Model of String.prototype.toLowerCase restricted to the ASCII range,
which is the only range the embedded comparisons exercise. -/
def lowerS (s : String) : String := ⟨s.data.map Char.toLower⟩

/-- Does the pattern occur at the head of the list? -/
def leadMatch : List Char → List Char → Bool
  | [], _ => true
  | _ :: _, [] => false
  | a :: as, b :: bs => a == b && leadMatch as bs

/-- Does the pattern occur anywhere in the list? Models the JavaScript
String.prototype.includes test used with substring regexes. -/
def subMatch (pat : List Char) : List Char → Bool
  | [] => pat.isEmpty
  | c :: cs => leadMatch pat (c :: cs) || subMatch pat cs

/-- JavaScript truthiness of strings: the empty string is falsy, so the
expression a or-else b yields b exactly when a is empty. -/
def jsOrS (a b : String) : String := if a.isEmpty then b else a

/-- Read an optional attribute the way the source reads a possibly absent
data attribute: absent values behave as the empty string. -/
def optS (o : Option String) : String := o.getD ""

/-- Pad a numeral to two digits, as String(n).padStart(2, "0") does for
the numbers produced by Date getters. -/
def pad2 (n : Nat) : String := if n < 10 then "0" ++ toString n else toString n

/-! ## Date validity: isValidDateDDMMYYYY (script.js lines 537 to 544) -/

/-- Gregorian leap-year rule, as implemented by the JavaScript Date object
for the years 1900 to 9999. -/
def isLeap (y : Nat) : Bool := y % 4 == 0 && (y % 100 != 0 || y % 400 == 0)

/-- Days in month m of year y; embeds the source expression
new Date(y, m, 0).getDate(), which for 1 ≤ m ≤ 12 and 1900 ≤ y ≤ 9999
yields the length of calendar month m (1-based) of year y. -/
def daysInMonth (m y : Nat) : Nat :=
  if m == 2 then (if isLeap y then 29 else 28)
  else if m == 4 || m == 6 || m == 9 || m == 11 then 30
  else 31

/-- Character-list body of isValidDateDDMMYYYY: the anchored regex
dd/dd/dddd over ASCII digits followed by the range guards of the source,
in source order (year first, then month, then day against the month
length). -/
def validDateChars : List Char → Bool
  | [a, b, s1, c, d, s2, e, f, g, h] =>
    isDig a && isDig b && s1 == '/' && isDig c && isDig d && s2 == '/' &&
    isDig e && isDig f && isDig g && isDig h &&
    (let dd := 10 * dval a + dval b
     let mm := 10 * dval c + dval d
     let yy := 1000 * dval e + 100 * dval f + 10 * dval g + dval h
     decide (1900 ≤ yy) && decide (yy ≤ 9999) &&
     decide (1 ≤ mm) && decide (mm ≤ 12) &&
     decide (1 ≤ dd) && decide (dd ≤ daysInMonth mm yy))
  | _ => false

/-- Embeds isValidDateDDMMYYYY (script.js lines 537 to 544). -/
def isValidDateDDMMYYYY (s : String) : Bool := validDateChars s.data

/-- Claim-side reading of the date contract: the string has the exact
shape dd/mm/yyyy over ASCII digits, with year in 1900..9999, month in
1..12 and day between 1 and the number of days of that month. -/
def DateClaimSpec (s : String) : Prop :=
  ∃ a b c d e f g h : Char,
    s.data = [a, b, '/', c, d, '/', e, f, g, h] ∧
    isDig a = true ∧ isDig b = true ∧ isDig c = true ∧ isDig d = true ∧
    isDig e = true ∧ isDig f = true ∧ isDig g = true ∧ isDig h = true ∧
    1900 ≤ 1000 * dval e + 100 * dval f + 10 * dval g + dval h ∧
    1000 * dval e + 100 * dval f + 10 * dval g + dval h ≤ 9999 ∧
    1 ≤ 10 * dval c + dval d ∧ 10 * dval c + dval d ≤ 12 ∧
    1 ≤ 10 * dval a + dval b ∧
    10 * dval a + dval b ≤
      daysInMonth (10 * dval c + dval d) (1000 * dval e + 100 * dval f + 10 * dval g + dval h)

theorem validDateChars_iff (l : List Char) :
    validDateChars l = true ↔
      ∃ a b c d e f g h : Char,
        l = [a, b, '/', c, d, '/', e, f, g, h] ∧
        isDig a = true ∧ isDig b = true ∧ isDig c = true ∧ isDig d = true ∧
        isDig e = true ∧ isDig f = true ∧ isDig g = true ∧ isDig h = true ∧
        1900 ≤ 1000 * dval e + 100 * dval f + 10 * dval g + dval h ∧
        1000 * dval e + 100 * dval f + 10 * dval g + dval h ≤ 9999 ∧
        1 ≤ 10 * dval c + dval d ∧ 10 * dval c + dval d ≤ 12 ∧
        1 ≤ 10 * dval a + dval b ∧
        10 * dval a + dval b ≤
          daysInMonth (10 * dval c + dval d) (1000 * dval e + 100 * dval f + 10 * dval g + dval h) := by
  constructor
  · intro hv
    rcases l with _ | ⟨a, _ | ⟨b, _ | ⟨s1, _ | ⟨c, _ | ⟨d, _ | ⟨s2, _ | ⟨e, _ | ⟨f, _ | ⟨g, _ | ⟨h, _ | ⟨x, t⟩⟩⟩⟩⟩⟩⟩⟩⟩⟩⟩ <;>
      simp [validDateChars] at hv
    obtain ⟨⟨⟨⟨⟨⟨⟨⟨⟨⟨ha, hb⟩, h1⟩, hc⟩, hd⟩, h2⟩, he⟩, hf⟩, hg⟩, hh⟩,
      ⟨⟨⟨⟨⟨hy1, hy2⟩, hm1⟩, hm2⟩, hd1⟩, hd2⟩⟩ := hv
    subst h1; subst h2
    exact ⟨a, b, c, d, e, f, g, h, rfl, ha, hb, hc, hd, he, hf, hg, hh,
      hy1, hy2, hm1, hm2, hd1, hd2⟩
  · rintro ⟨a, b, c, d, e, f, g, h, rfl, ha, hb, hc, hd, he, hf, hg, hh, hy1, hy2, hm1, hm2, hd1, hd2⟩
    simp [validDateChars, ha, hb, hc, hd, he, hf, hg, hh]
    exact ⟨⟨⟨⟨⟨hy1, hy2⟩, hm1⟩, hm2⟩, hd1⟩, hd2⟩

/-- C2: for every string s, isValidDateDDMMYYYY s is true exactly when s
has the shape dd/mm/yyyy over ASCII digits with year in 1900..9999, month
in 1..12 and day between 1 and the number of days in that month of that
year, leap years included; the four example strings of the claim behave
as stated. -/
theorem C2_isValidDate_iff_spec :
    (∀ s : String, isValidDateDDMMYYYY s = true ↔ DateClaimSpec s) ∧
    isValidDateDDMMYYYY "29/02/2024" = true ∧
    isValidDateDDMMYYYY "29/02/2023" = false ∧
    isValidDateDDMMYYYY "31/04/2020" = false ∧
    isValidDateDDMMYYYY "01/01/1899" = false := by
  refine ⟨fun s => ?_, by decide, by decide, by decide, by decide⟩
  exact validDateChars_iff s.data

/-! ## The field model

A FormField embeds one control of the live form (the elements returned by
querySelectorAll over input, select, textarea), carrying exactly the
attributes the validation and save-gating code reads. Layout visibility
(the isVisible check of script.js line 782, offsetParent or client
rects) and the presence of a hidden-attribute ancestor (the closest
lookup of line 874) are environment facts recorded as fields. -/
structure FormField where
  /-- Tag is input (the date selectors and group selectors match only
  input elements). -/
  isInput : Bool
  /-- The DOM type property, lowercase in documents, for example text,
  hidden, checkbox, radio, email, submit. -/
  type : String
  name : String
  value : String
  checked : Bool
  disabled : Bool
  /-- Result of the isVisible layout test of script.js line 782. -/
  visible : Bool
  /-- The element or an ancestor carries the hidden attribute, which is
  what el.closest with selector hidden-in-brackets tests at line 874. -/
  inHiddenTree : Bool
  /-- dataset.optional is the string true. -/
  dataOptional : Bool
  /-- The element has the required attribute. -/
  hasRequiredAttr : Bool
  /-- dataset.required is the string true. -/
  dataRequired : Bool
  /-- The aria-required attribute is the string true. -/
  ariaRequired : Bool
  /-- classList contains date-field. -/
  hasDateClass : Bool
  /-- dataset.type, when present. -/
  dataType : Option String
  placeholder : String
  deriving DecidableEq, Repr

/-- Embeds isGroupChecked (script.js lines 783 to 790): checkbox or radio
controls count as satisfied when any same-type same-name input of the
form is checked; other controls, and nameless ones, always count. -/
def isGroupChecked (form : List FormField) (f : FormField) : Bool :=
  let t := lowerS f.type
  if t != "checkbox" && t != "radio" then true
  else if f.name.isEmpty then true
  else (form.filter fun g => g.isInput && lowerS g.type == t && g.name == f.name).any (·.checked)

/-- Loop body of areAllVisibleFieldsFilled for one field: the continue
branches of the source loop yield true, the early return-false branches
yield the failing check. -/
def filledBody (form : List FormField) (el : FormField) : Bool :=
  if !el.visible || el.disabled || el.type == "hidden" then true
  else if el.dataOptional then true
  else
    let t := lowerS el.type
    if t == "button" || t == "submit" then true
    else if t == "checkbox" || t == "radio" then isGroupChecked form el
    else !(jsTrim el.value).isEmpty

/-- Embeds areAllVisibleFieldsFilled (script.js lines 791 to 806). -/
def areAllVisibleFieldsFilled (form : List FormField) : Bool :=
  form.all (filledBody form)

/-- The date-field selector list used by allDatesValid, formatDateFields
and the submit-time normalization (script.js lines 578 to 585, 807 to
815, 939 to 946): inputs with the date-field class, a dd/mm/yyyy
placeholder in either spelling, a data-type of date, or a name containing
the substring date or dob (attribute substring selectors match
case-sensitively). -/
def isDateSelector (f : FormField) : Bool :=
  f.isInput &&
    (f.hasDateClass || f.placeholder == "dd/mm/yyyy" || f.placeholder == "DD/MM/YYYY" ||
      f.dataType == some "date" || subMatch "date".data f.name.data ||
      subMatch "dob".data f.name.data)

/-- Loop body of allDatesValid (script.js lines 816 to 822) for one
matched field: visible, non-disabled controls must hold, after trimming,
a ten-character string accepted by isValidDateDDMMYYYY; others are
skipped. -/
def dateBody (el : FormField) : Bool :=
  if !el.visible || el.disabled then true
  else
    let v := jsTrim el.value
    v.length == 10 && isValidDateDDMMYYYY v

/-- Embeds the loop of allDatesValid over the fields matched by the date
selector. -/
def allDatesValid (form : List FormField) : Bool :=
  (form.filter isDateSelector).all dateBody

/-! ## The Validator: validateForm (script.js lines 870 to 899) -/

/-- A field is skipped by the Validator when it sits in a hidden subtree,
has type hidden, or is disabled (script.js line 874). -/
def fieldSkip (el : FormField) : Bool := el.inHiddenTree || el.type == "hidden" || el.disabled

/-- Required marking test of script.js line 875. -/
def isRequiredB (el : FormField) : Bool := el.hasRequiredAttr || el.dataRequired || el.ariaRequired

/-- Embeds the e-mail regex of script.js line 883, anchored
nonempty-local at-sign nonempty-domain dot nonempty-tail where every
piece excludes whitespace and at-signs: the part after the at-sign must
contain a dot that is neither its first nor its last character. -/
def emailOkChars (l : List Char) : Bool :=
  let a := l.takeWhile (· != '@')
  match l.dropWhile (· != '@') with
  | '@' :: b =>
    !a.isEmpty && a.all (fun c => !jsWhitespace c) &&
    !b.isEmpty && b.all (fun c => !jsWhitespace c && c != '@') &&
    ((b.drop 1).dropLast.contains '.')
  | _ => false

/-- String-level e-mail shape test. -/
def emailOk (s : String) : Bool := emailOkChars s.data

/-- Embeds the Aadhaar regex of script.js line 891: four digits, one
whitespace character, four digits, one whitespace character, four
digits, anchored. -/
def aadharOkChars : List Char → Bool
  | [a, b, c, d, w1, e, f, g, h, w2, i, j, k, m] =>
    isDig a && isDig b && isDig c && isDig d && jsWhitespace w1 &&
    isDig e && isDig f && isDig g && isDig h && jsWhitespace w2 &&
    isDig i && isDig j && isDig k && isDig m
  | _ => false

/-- String-level Aadhaar format test. -/
def aadharOk (s : String) : Bool := aadharOkChars s.data

/-- Lowercase substring test, modelling a case-insensitive regex search
over the name attribute. -/
def nameHasCI (pat : String) (name : String) : Bool :=
  subMatch pat.data (name.data.map Char.toLower)

/-- The date category test of the Validator (script.js line 886): the
date-field class, a data-type of date, or a name matching the
case-insensitive regex date-or-dob. -/
def isDateForValidator (el : FormField) : Bool :=
  el.hasDateClass || el.dataType == some "date" || nameHasCI "date" el.name || nameHasCI "dob" el.name

/-- The Aadhaar category test of the Validator (script.js line 890): a
nonempty name whose lowercase form contains aadhar. -/
def isAadharField (el : FormField) : Bool := !el.name.isEmpty && nameHasCI "aadhar" el.name

/-- First failing rule of one field, in the fixed source order of
script.js lines 878 to 893: required-and-empty, then e-mail shape, then
date validity, then Aadhaar format; none when the field passes. -/
def fieldRule (el : FormField) : Option String :=
  let val := jsTrim el.value
  if isRequiredB el && val.isEmpty then some "Please fill the required field."
  else if el.type == "email" && !val.isEmpty && !emailOk val then some "Invalid email address."
  else if isDateForValidator el && !val.isEmpty && !isValidDateDDMMYYYY val then
    some "Date must be dd/mm/yyyy."
  else if isAadharField el && !val.isEmpty && !aadharOk val then some "Invalid Aadhaar format."
  else none

/-- Validation outcome: valid, or the index (document order) of the
first failing field together with its message. -/
inductive VResult where
  | valid
  | invalid (idx : Nat) (msg : String)
  deriving DecidableEq, Repr

/-- The Bool the source reads as result.valid. -/
def VResult.isOk : VResult → Bool
  | .valid => true
  | .invalid _ _ => false

/-- Loop of validateForm, carrying the index of the current field. -/
def validateFormAux : Nat → List FormField → VResult
  | _, [] => .valid
  | i, el :: rest =>
    if fieldSkip el then validateFormAux (i + 1) rest
    else
      match fieldRule el with
      | some msg => .invalid i msg
      | none => validateFormAux (i + 1) rest

/-- Embeds validateForm (script.js lines 870 to 899). -/
def validateForm (form : List FormField) : VResult := validateFormAux 0 form

/-- Embeds recomputeSaveEnabled (script.js lines 824 to 829): the value
assigned to enable, which is the negation of the save-button disabled
state. -/
def recomputeSaveEnabled (form : List FormField) : Bool :=
  areAllVisibleFieldsFilled form && allDatesValid form && (validateForm form).isOk

/-! ## Characterization of the Validator -/

/-- A field makes the Validator fail when it is not skipped and some rule
rejects it. -/
def fieldFails (el : FormField) : Bool := !fieldSkip el && (fieldRule el).isSome

theorem fieldFails_false_iff (f : FormField) :
    fieldFails f = false ↔ (fieldSkip f = false → fieldRule f = none) := by
  cases hs : fieldSkip f <;> cases hr : fieldRule f <;> simp [fieldFails, hs, hr]

theorem validateFormAux_valid_iff (form : List FormField) (i : Nat) :
    validateFormAux i form = .valid ↔ ∀ f ∈ form, fieldFails f = false := by
  induction form generalizing i with
  | nil => simp [validateFormAux]
  | cons el rest ih =>
    by_cases hs : fieldSkip el
    · simp [validateFormAux, hs, ih, fieldFails]
    · cases hr : fieldRule el with
      | some msg => simp [validateFormAux, hs, hr, fieldFails]
      | none => simp [validateFormAux, hs, hr, ih, fieldFails]

theorem validateFormAux_invalid_spec (form : List FormField) (i j : Nat) (msg : String)
    (h : validateFormAux i form = .invalid j msg) :
    i ≤ j ∧ ∃ f, form.get? (j - i) = some f ∧ fieldSkip f = false ∧ fieldRule f = some msg ∧
      ∀ k g, k < j - i → form.get? k = some g → fieldFails g = false := by
  induction form generalizing i with
  | nil => simp [validateFormAux] at h
  | cons el rest ih =>
    by_cases hs : fieldSkip el
    · rw [validateFormAux, if_pos hs] at h
      obtain ⟨hij, f, hget, hsk, hrule, hmin⟩ := ih (i + 1) h
      refine ⟨by omega, f, ?_, hsk, hrule, ?_⟩
      · have hji : j - i = (j - (i + 1)) + 1 := by omega
        rw [hji]; simpa using hget
      · intro k g hk hkg
        match k with
        | 0 =>
          have hge : el = g := by simpa using hkg
          subst hge
          simp [fieldFails, hs]
        | k + 1 =>
          have hk2 : k < j - (i + 1) := by omega
          exact hmin k g hk2 (by simpa using hkg)
    · rw [validateFormAux, if_neg hs] at h
      cases hr : fieldRule el with
      | some m =>
        rw [hr] at h
        have hij : i = j ∧ m = msg := by
          constructor <;> { cases h; rfl }
        obtain ⟨rfl, rfl⟩ := hij
        refine ⟨le_refl i, el, by simp, by simpa using hs, hr, ?_⟩
        intro k g hk
        omega
      | none =>
        rw [hr] at h
        obtain ⟨hij, f, hget, hsk, hrule, hmin⟩ := ih (i + 1) h
        refine ⟨by omega, f, ?_, hsk, hrule, ?_⟩
        · have hji : j - i = (j - (i + 1)) + 1 := by omega
          rw [hji]; simpa using hget
        · intro k g hk hkg
          match k with
          | 0 =>
            have hge : el = g := by simpa using hkg
            subst hge
            simp [fieldFails, hs, hr]
          | k + 1 =>
            have hk2 : k < j - (i + 1) := by omega
            exact hmin k g hk2 (by simpa using hkg)

theorem validateForm_valid_iff (form : List FormField) :
    validateForm form = .valid ↔ ∀ f ∈ form, fieldFails f = false :=
  validateFormAux_valid_iff form 0

theorem validateForm_invalid_spec (form : List FormField) (j : Nat) (msg : String)
    (h : validateForm form = .invalid j msg) :
    ∃ f, form.get? j = some f ∧ fieldSkip f = false ∧ fieldRule f = some msg ∧
      ∀ k g, k < j → form.get? k = some g → fieldFails g = false := by
  have := validateFormAux_invalid_spec form 0 j msg h
  simpa using this.2

/-- The four per-field rules of the Validator as an ordered list of
checks, following the claim wording: required-and-empty, e-mail shape,
calendar-valid dd/mm/yyyy, then the twelve-digit identifier format. -/
def ruleChecks (el : FormField) : List (Bool × String) :=
  let val := jsTrim el.value
  [(isRequiredB el && val.isEmpty, "Please fill the required field."),
   (el.type == "email" && !val.isEmpty && !emailOk val, "Invalid email address."),
   (isDateForValidator el && !val.isEmpty && !isValidDateDDMMYYYY val, "Date must be dd/mm/yyyy."),
   (isAadharField el && !val.isEmpty && !aadharOk val, "Invalid Aadhaar format.")]

/-- Message of the first rule, in the fixed order, that rejects the
field. -/
def firstRuleMatch (el : FormField) : Option String := ((ruleChecks el).find? (·.1)).map (·.2)

theorem fieldRule_eq_firstRuleMatch (el : FormField) : fieldRule el = firstRuleMatch el := by
  simp only [fieldRule, firstRuleMatch, ruleChecks]
  cases h1 : (isRequiredB el && (jsTrim el.value).isEmpty) <;>
    cases h2 : (el.type == "email" && !(jsTrim el.value).isEmpty && !emailOk (jsTrim el.value)) <;>
    cases h3 : (isDateForValidator el && !(jsTrim el.value).isEmpty &&
      !isValidDateDDMMYYYY (jsTrim el.value)) <;>
    cases h4 : (isAadharField el && !(jsTrim el.value).isEmpty && !aadharOk (jsTrim el.value)) <;>
    simp [List.find?, h1, h2, h3, h4]

theorem fieldRule_msg_not_empty (el : FormField) (msg : String)
    (h : fieldRule el = some msg) : msg.isEmpty = false := by
  simp only [fieldRule] at h
  split_ifs at h <;> simp at h <;> subst h <;> rfl

/-- C3: validateForm either reports valid or exactly one failure; the
reported index is the first, in document order, whose field some rule
rejects (all earlier fields pass), and within one field the rules apply
in the fixed order required-and-empty, e-mail, date, identifier, the
first rejecting rule supplying the message. -/
theorem C3_validateForm_single_first_failure (form : List FormField) :
    (validateForm form = .valid ↔ ∀ f ∈ form, fieldFails f = false) ∧
    (∀ j msg, validateForm form = .invalid j msg →
      (∃ f, form.get? j = some f ∧ fieldFails f = true ∧ fieldRule f = some msg) ∧
      ∀ k g, k < j → form.get? k = some g → fieldFails g = false) ∧
    (∀ f : FormField, fieldRule f = firstRuleMatch f) := by
  refine ⟨validateForm_valid_iff form, ?_, fieldRule_eq_firstRuleMatch⟩
  intro j msg h
  obtain ⟨f, hget, hsk, hrule, hmin⟩ := validateForm_invalid_spec form j msg h
  exact ⟨⟨f, hget, by simp [fieldFails, hsk, hrule], hrule⟩, hmin⟩

/-- An explicitly-optional e-mail field with a malformed value: the data
of the C4 counterexample. -/
def optionalEmailField : FormField :=
  { isInput := true, type := "email", name := "contact", value := "xyz", checked := false,
    disabled := false, visible := true, inHiddenTree := false, dataOptional := true,
    hasRequiredAttr := false, dataRequired := false, ariaRequired := false,
    hasDateClass := false, dataType := none, placeholder := "" }

/-- C4 is falsified as stated: a field explicitly marked optional is not
skipped by the Validator; with a malformed e-mail value it becomes the
reported failing field. -/
theorem C4_counterexample :
    optionalEmailField.dataOptional = true ∧
    validateForm [optionalEmailField] = .invalid 0 "Invalid email address." := by
  constructor
  · rfl
  · decide

/-- C4 amended: every field that is hidden (itself or an ancestor
carrying the hidden attribute, or of type hidden) or disabled is skipped
entirely by the Validator regardless of category: it is never the
reported failing field, and validity is equivalent to every non-skipped
field passing its rules. -/
theorem C4_validator_skips_hidden_disabled (form : List FormField) :
    (∀ j msg, validateForm form = .invalid j msg →
      ∃ f, form.get? j = some f ∧ fieldSkip f = false) ∧
    (validateForm form = .valid ↔ ∀ f ∈ form, fieldSkip f = false → fieldRule f = none) := by
  constructor
  · intro j msg h
    obtain ⟨f, hget, hsk, _, _⟩ := validateForm_invalid_spec form j msg h
    exact ⟨f, hget, hsk⟩
  · rw [validateForm_valid_iff]
    exact forall_congr' fun f => forall_congr' fun _ => fieldFails_false_iff f

/-! ## C1: the save gate -/

/-- Button-like controls, which are not data fields. -/
def isButtonType (f : FormField) : Bool := lowerS f.type == "button" || lowerS f.type == "submit"

/-- Checkbox or radio controls, whose filled state is their group
state. -/
def isChoiceType (f : FormField) : Bool := lowerS f.type == "checkbox" || lowerS f.type == "radio"

/-- Claim-side filled notion for one field: a checkbox or radio member
counts when its shared-name group has a checked member, any other
control counts when its trimmed value is nonempty. -/
def claimFilledOK (form : List FormField) (f : FormField) : Bool :=
  if isChoiceType f then isGroupChecked form f else !(jsTrim f.value).isEmpty

/-- Claim-side completeness: every visible, non-disabled, non-hidden,
non-optional data field of the form is filled. -/
def ClaimFilled (form : List FormField) : Prop :=
  ∀ f ∈ form, f.visible = true → f.disabled = false → f.type ≠ "hidden" →
    f.dataOptional = false → isButtonType f = false → claimFilledOK form f = true

/-- Claim-side date requirement for one field: the trimmed current value
has ten characters and is calendar-valid. -/
def claimDateOK (f : FormField) : Bool :=
  (jsTrim f.value).length == 10 && isValidDateDDMMYYYY (jsTrim f.value)

/-- The date clause exactly as the claim states it: every visible
date-typed field holds a ten-character calendar-valid value. -/
def ClaimDatesOrig (form : List FormField) : Prop :=
  ∀ f ∈ form, isDateSelector f = true → f.visible = true → claimDateOK f = true

/-- The date clause as the code enforces it: disabled date fields are
exempt. -/
def ClaimDatesAmended (form : List FormField) : Prop :=
  ∀ f ∈ form, isDateSelector f = true → f.visible = true → f.disabled = false →
    claimDateOK f = true

/-- The full right-hand side of claim C1 as stated. -/
def ClaimC1RHS (form : List FormField) : Prop :=
  ClaimFilled form ∧ ClaimDatesOrig form ∧ validateForm form = .valid

/-- The right-hand side of claim C1 with the date clause restricted to
non-disabled fields. -/
def ClaimC1RHSAmended (form : List FormField) : Prop :=
  ClaimFilled form ∧ ClaimDatesAmended form ∧ validateForm form = .valid

theorem filledBody_iff (form : List FormField) (f : FormField) :
    filledBody form f = true ↔
      (f.visible = true → f.disabled = false → f.type ≠ "hidden" →
        f.dataOptional = false → isButtonType f = false → claimFilledOK form f = true) := by
  by_cases h1 : f.visible <;> by_cases h2 : f.disabled <;>
    by_cases h3 : f.type = "hidden" <;> by_cases h4 : f.dataOptional <;>
    by_cases h5 : (lowerS f.type == "button" || lowerS f.type == "submit") = true <;>
    by_cases h6 : (lowerS f.type == "checkbox" || lowerS f.type == "radio") = true <;>
    simp [filledBody, claimFilledOK, isButtonType, isChoiceType, h1, h2, h3, h4, h5, h6]

theorem areAllVisibleFieldsFilled_iff (form : List FormField) :
    areAllVisibleFieldsFilled form = true ↔ ClaimFilled form := by
  rw [areAllVisibleFieldsFilled, List.all_eq_true, ClaimFilled]
  exact forall_congr' fun f => forall_congr' fun _ => filledBody_iff form f

theorem dateBody_iff (f : FormField) :
    dateBody f = true ↔ (f.visible = true → f.disabled = false → claimDateOK f = true) := by
  by_cases h1 : f.visible <;> by_cases h2 : f.disabled <;>
    simp [dateBody, claimDateOK, h1, h2]

theorem allDatesValid_iff (form : List FormField) :
    allDatesValid form = true ↔ ClaimDatesAmended form := by
  rw [allDatesValid, List.all_eq_true, ClaimDatesAmended]
  constructor
  · intro H f hf hsel hv hd
    exact (dateBody_iff f).mp (H f (List.mem_filter.mpr ⟨hf, hsel⟩)) hv hd
  · intro H f hf
    obtain ⟨hmem, hsel⟩ := List.mem_filter.mp hf
    exact (dateBody_iff f).mpr fun hv hd => H f hmem hsel hv hd

theorem isOk_iff_valid (r : VResult) : r.isOk = true ↔ r = .valid := by
  cases r <;> simp [VResult.isOk]

/-- A visible but disabled date field holding a non-date value: the data
of the C1 counterexample. -/
def disabledDateField : FormField :=
  { isInput := true, type := "text", name := "dob", value := "xx", checked := false,
    disabled := true, visible := true, inHiddenTree := false, dataOptional := false,
    hasRequiredAttr := false, dataRequired := false, ariaRequired := false,
    hasDateClass := true, dataType := none, placeholder := "" }

/-- C1 is falsified as stated: on a form whose only control is a
visible, disabled date field holding the value xx, the recomputed gate
enables saving, while the stated right-hand side is false because a
visible date-typed field does not hold a calendar-valid value. -/
theorem C1_counterexample :
    recomputeSaveEnabled [disabledDateField] = true ∧ ¬ ClaimC1RHS [disabledDateField] := by
  constructor
  · decide
  · rintro ⟨-, hD, -⟩
    have := hD disabledDateField (by simp) (by decide) (by decide)
    revert this
    decide

/-- C1 amended: the save action is enabled exactly when every visible,
non-disabled, non-hidden, non-optional data field is filled (checkbox
and radio members counted through their shared-name group), every
visible and non-disabled date-typed field holds, after trimming, a
ten-character calendar-valid dd/mm/yyyy value, and the Validator reports
valid; in particular the gate is false whenever any visible,
non-disabled, non-hidden required field is empty. -/
theorem C1_save_gate_amended (form : List FormField) :
    (recomputeSaveEnabled form = true ↔ ClaimC1RHSAmended form) ∧
    (∀ f ∈ form, f.visible = true → f.inHiddenTree = false → f.type ≠ "hidden" →
      f.disabled = false → isRequiredB f = true → f.value = "" →
      recomputeSaveEnabled form = false) := by
  constructor
  · rw [recomputeSaveEnabled, ClaimC1RHSAmended]
    simp only [Bool.and_eq_true]
    rw [areAllVisibleFieldsFilled_iff, allDatesValid_iff, isOk_iff_valid]
    tauto
  · intro f hf hv hh ht hd hreq hval
    have htrim : jsTrim f.value = "" := by rw [hval]; rfl
    have hemp : "".isEmpty = true := rfl
    have hrule : fieldRule f = some "Please fill the required field." := by
      rw [fieldRule]
      simp [htrim, hreq, hemp]
    have hskip : fieldSkip f = false := by
      simp [fieldSkip, hh, hd, ht]
    have hfail : fieldFails f = true := by
      simp [fieldFails, hskip, hrule]
    have hnv : validateForm form ≠ .valid := by
      intro hvld
      have := (validateForm_valid_iff form).mp hvld f hf
      rw [hfail] at this
      cases this
    have hok : (validateForm form).isOk = false := by
      cases hvf : validateForm form with
      | valid => exact absurd hvf hnv
      | invalid j m => rfl
    simp [recomputeSaveEnabled, hok]

/-! ## Date re-encoding helpers of the Submission Pipeline -/

/-- The submit-time date normalization regex of script.js line 948: an
anchored dd/mm/yyyy digit shape mapped to yyyy-mm-dd; no match yields
none and the value is transmitted unchanged. -/
def ddmmToYmdChars : List Char → Option (List Char)
  | [a, b, s1, c, d, s2, e, f, g, h] =>
    if isDig a && isDig b && s1 == '/' && isDig c && isDig d && s2 == '/' &&
        isDig e && isDig f && isDig g && isDig h then
      some [e, f, g, h, '-', c, d, '-', a, b]
    else none
  | _ => none

/-- Embeds the per-field date normalization of setupSaveButtonHandler
(script.js lines 947 to 950): the trimmed value, when it matches the
dd/mm/yyyy shape, is re-encoded as yyyy-mm-dd, otherwise the value is
left as it is. -/
def normalizeDateForSubmit (s : String) : String :=
  match ddmmToYmdChars (jsTrimList s.data) with
  | some l => ⟨l⟩
  | none => s

/-- The anchored yyyy-mm-dd digit shape of formatDateFields (script.js
line 588) mapped back to the dd/mm/yyyy display form. -/
def ymdToDdmmChars : List Char → Option (List Char)
  | [e, f, g, h, d1, c, d, d2, a, b] =>
    if isDig e && isDig f && isDig g && isDig h && d1 == '-' && isDig c && isDig d &&
        d2 == '-' && isDig a && isDig b then
      some [a, b, '/', c, d, '/', e, f, g, h]
    else none
  | _ => none

/-- Embeds the per-field value rewrite of formatDateFields (script.js
lines 587 to 591): a nonempty value containing a dash and matching the
yyyy-mm-dd shape is redisplayed as dd/mm/yyyy; any other value is left
unchanged. -/
def formatDateValue (s : String) : String :=
  if !s.data.isEmpty && s.data.contains '-' then
    match ymdToDdmmChars s.data with
    | some l => ⟨l⟩
    | none => s
  else s

/-! ## The save-click flow of setupSaveButtonHandler
(script.js lines 915 to 1025) -/

/-- Entries of new FormData(form): named, enabled, non-button controls,
with checkbox and radio controls contributing only when checked. File
and multi-select controls are outside the model. -/
def formDataPairs (form : List FormField) : List (String × String) :=
  form.filterMap fun f =>
    if f.name.isEmpty || f.disabled then none
    else if (lowerS f.type == "checkbox" || lowerS f.type == "radio") && !f.checked then none
    else if lowerS f.type == "button" || lowerS f.type == "submit" then none
    else some (f.name, f.value)

/-- FormData.set: replace the first entry under the key and drop any
later duplicates, appending when the key is absent. -/
def fdSet : List (String × String) → String → String → List (String × String)
  | [], k, v => [(k, v)]
  | (a, b) :: t, k, v =>
    if a == k then (k, v) :: t.filter (fun p => p.1 != k) else (a, b) :: fdSet t k v

/-- The payload transmitted on submit: the form data with every
date-selector field whose trimmed value matches dd/mm/yyyy re-encoded to
yyyy-mm-dd (script.js lines 935, 947 to 950). -/
def submittedPayload (form : List FormField) : List (String × String) :=
  (form.filter isDateSelector).foldl
    (fun ps f =>
      match ddmmToYmdChars (jsTrimList f.value.data) with
      | some l => fdSet ps f.name ⟨l⟩
      | none => ps)
    (formDataPairs form)

/-- Outcome of one save-button click, up to the point where a network
request would be issued. The validationAbort constructor records the
index of the field that focusAndClear focuses, the alert message shown,
and the form state after the value of that field is cleared; no request
is sent on either abort. -/
inductive SaveOutcome where
  | validationAbort (idx : Nat) (alertMsg : String) (formAfter : List FormField)
  | completenessAbort (alertMsg : String)
  | submit (payload : List (String × String))
  deriving DecidableEq, Repr

/-- The value-clearing effect of focusAndClear (script.js lines 901 to
907) on the field at the given index. -/
def clearValueAt : List FormField → Nat → List FormField
  | [], _ => []
  | f :: t, 0 => { f with value := "" } :: t
  | f :: t, n + 1 => f :: clearValueAt t n

/-- Embeds the click handler of setupSaveButtonHandler (script.js lines
915 to 957) up to the transmission: an invalid form aborts with the
failure message (or its fallback for an empty message) and the offending
field focused and cleared; an incomplete form aborts with the generic
completion message; otherwise the normalized payload is submitted. -/
def saveClick (form : List FormField) : SaveOutcome :=
  match validateForm form with
  | .invalid i msg =>
    .validationAbort i (if msg.isEmpty then "Please correct highlighted fields." else msg)
      (clearValueAt form i)
  | .valid =>
    if !(areAllVisibleFieldsFilled form && allDatesValid form) then
      .completenessAbort "Please complete all fields and enter valid dates (dd/mm/yyyy)."
    else .submit (submittedPayload form)

/-- C6: when the Validator reports a failure, the save click aborts with
no request, the failure message is surfaced, and the offending field is
focused and has its value cleared. -/
theorem C6_validation_abort (form : List FormField) (i : Nat) (msg : String)
    (h : validateForm form = .invalid i msg) :
    saveClick form = .validationAbort i msg (clearValueAt form i) ∧
    ∀ p, saveClick form ≠ .submit p := by
  have hm : msg.isEmpty = false := by
    obtain ⟨f, _, _, hrule, _⟩ := validateForm_invalid_spec form i msg h
    exact fieldRule_msg_not_empty f msg hrule
  have h1 : saveClick form = .validationAbort i msg (clearValueAt form i) := by
    unfold saveClick
    rw [h]
    simp [hm]
  exact ⟨h1, fun p hp => by rw [h1] at hp; cases hp⟩

/-- A visible required text field with an empty value. -/
def requiredEmptyField : FormField :=
  { isInput := true, type := "text", name := "name", value := "", checked := false,
    disabled := false, visible := true, inHiddenTree := false, dataOptional := false,
    hasRequiredAttr := true, dataRequired := false, ariaRequired := false,
    hasDateClass := false, dataType := none, placeholder := "" }

/-- Witness for C6 at a concrete failing form. -/
theorem C6_witness :
    validateForm [requiredEmptyField] = .invalid 0 "Please fill the required field." ∧
    saveClick [requiredEmptyField] =
      .validationAbort 0 "Please fill the required field." (clearValueAt [requiredEmptyField] 0) := by
  have h : validateForm [requiredEmptyField] = .invalid 0 "Please fill the required field." := by
    decide
  exact ⟨h, (C6_validation_abort [requiredEmptyField] 0 "Please fill the required field." h).1⟩

/-! ## Response interpretation of the Submission Pipeline
(script.js lines 968 to 1014) -/

/-- The data the response handler reads: HTTP status, whether the fetch
followed a redirect, whether the content type includes application/json,
the truthiness-relevant parts of a JSON body (success flag, errors map
as an association list in iteration order, html fragment), and the raw
text body otherwise. -/
structure SubmitResponse where
  status : Nat
  redirected : Bool
  contentTypeJson : Bool
  jsonSuccess : Bool
  jsonErrors : Option (List (String × List String))
  jsonHtml : Option String
  textBody : String
  deriving DecidableEq, Repr

/-- The branch the handler takes: authentication failure (login overlay
plus inline message), success (close and reload), per-field server
errors with the first message alerted, a re-render fragment, the plain
validation-failed alert, or the unexpected-response alert-and-reload. -/
inductive SubmitOutcome where
  | authFailure (msg : String)
  | successReload
  | fieldErrors (errs : List (String × List String)) (alertMsg : String)
  | rerenderFragment (html : String)
  | validationFailedAlert
  | unexpectedReload
  deriving DecidableEq, Repr

/-- The modal-root marker regex of script.js line 1003 over the raw text
body, with either quoting style. -/
def textHasModalMarker (s : String) : Bool :=
  subMatch "id=\"entity-modal\"".data s.data || subMatch "id='entity-modal'".data s.data

/-- The alert shown on a field-errors response (script.js lines 980 to
983): the first message of the first entry, or the fallback when it is
missing or empty. -/
def firstErrorAlert (errs : List (String × List String)) : String :=
  match errs.head? with
  | some (_, m :: _) => if m.isEmpty then "Please fix the highlighted field." else m
  | _ => "Please fix the highlighted field."

/-- Embeds the response branching of setupSaveButtonHandler (script.js
lines 968 to 1014): 401, 403 or a followed redirect short-circuits to
the authentication path before any body inspection; JSON bodies branch
on the success flag, the errors map and the html fragment in that
order; non-JSON text containing the modal-root marker re-renders;
anything else alerts and reloads. -/
def interpretSaveResponse (r : SubmitResponse) : SubmitOutcome :=
  if r.status == 401 || r.status == 403 || r.redirected then .authFailure "Not authenticated."
  else if r.contentTypeJson then
    if r.jsonSuccess then .successReload
    else
      match r.jsonErrors with
      | some errs => .fieldErrors errs (firstErrorAlert errs)
      | none =>
        match r.jsonHtml with
        | some h => if h.isEmpty then .validationFailedAlert else .rerenderFragment h
        | none => .validationFailedAlert
  else if textHasModalMarker r.textBody then .rerenderFragment r.textBody
  else .unexpectedReload

/-- C5: a submission response with status 401 or 403, or one that
arrived through a followed redirect, always takes the
authentication-failure path and never produces a field-error outcome,
whatever the body holds. -/
theorem C5_auth_failure_path (r : SubmitResponse)
    (h : r.status = 401 ∨ r.status = 403 ∨ r.redirected = true) :
    interpretSaveResponse r = .authFailure "Not authenticated." ∧
    ∀ errs msg, interpretSaveResponse r ≠ .fieldErrors errs msg := by
  have hc : (r.status == 401 || r.status == 403 || r.redirected) = true := by
    rcases h with h | h | h <;> simp [h]
  have h1 : interpretSaveResponse r = .authFailure "Not authenticated." := by
    rw [interpretSaveResponse, if_pos hc]
  exact ⟨h1, fun errs msg hp => by rw [h1] at hp; cases hp⟩

/-- A 403 response carrying a JSON field-errors body. -/
def forbiddenResponse : SubmitResponse :=
  { status := 403, redirected := false, contentTypeJson := true, jsonSuccess := false,
    jsonErrors := some [("phone", ["Invalid"])], jsonHtml := none, textBody := "" }

/-- Witness for C5: even with a field-errors body, status 403 routes to
the authentication path. -/
theorem C5_witness :
    interpretSaveResponse forbiddenResponse = .authFailure "Not authenticated." :=
  (C5_auth_failure_path forbiddenResponse (Or.inr (Or.inl rfl))).1

/-! ## Entity Router: getEntityFromElement and getIdFromElement
(script.js lines 1596 to 1628) -/

/-- A trigger element as the router sees it: the data attributes read on
the element itself, its id attribute, its href attribute when present,
and the values the two closest-ancestor lookups would return (closest
includes the element itself; none models no match). -/
structure RouterEl where
  dataOpenEntity : Option String
  dataEditEntity : Option String
  dataDeleteEntity : Option String
  dataEntity : Option String
  idAttr : String
  href : Option String
  closestDataEntity : Option String
  dataId : Option String
  closestDataId : Option String
  deriving DecidableEq, Repr

/-- Case-insensitive equality of character lists, via ASCII
lowercasing. -/
def ciEqLower (pat l : List Char) : Bool := pat == l.map Char.toLower

/-- Does the list start with the given pattern, case-insensitively? The
pattern is given in lowercase. -/
def ciLead (pat : List Char) (l : List Char) : Bool :=
  leadMatch pat ((l.take pat.length).map Char.toLower) && decide (pat.length ≤ l.length)

/-- Does the list end with the given pattern, case-sensitively? -/
def endsWithCS (pat : List Char) (l : List Char) : Bool :=
  decide (pat.length ≤ l.length) && leadMatch pat (l.drop (l.length - pat.length))

/-- Line terminators, which the regex dot does not match. -/
def lineTerm (c : Char) : Bool :=
  c == '\n' || c == '\r' || decide (c.toNat = 0x2028) || decide (c.toNat = 0x2029)

/-- The case-insensitive test of script.js line 1602 for an element id
of the shape create-, a nonempty middle without line terminators, then
-btn. -/
def createBtnTest (id : String) : Bool :=
  let l := id.data
  ciLead "create-".data l && (endsWithCS "-btn".data (l.map Char.toLower)) &&
    decide (12 ≤ l.length) &&
    ((l.drop 7).take (l.length - 11)).all (fun c => !lineTerm c)

/-- The two case-sensitive replace calls of script.js line 1603: strip a
leading create- when present, then a trailing -btn when present. -/
def stripCreateBtnName (id : String) : String :=
  let l := id.data
  let l1 := if leadMatch "create-".data l then l.drop 7 else l
  let l2 := if endsWithCS "-btn".data l1 then l1.take (l1.length - 4) else l1
  ⟨l2⟩

/-- The four operation words of the entity-path regex of script.js line
1608, as lowercase character lists. -/
def opWords4 : List (List Char) := ["get".data, "create".data, "update".data, "delete".data]

/-- The three operation words of the trailing-id regex of script.js line
1624. -/
def opWords3 : List (List Char) := ["update".data, "get".data, "delete".data]

/-- The anchored entity-path regex of script.js line 1608: a leading
slash, a nonempty first segment, a slash, then one of get, create,
update, delete (case-insensitively) followed by a slash or the end; the
match yields the raw first segment. -/
def hrefEntityMatch (l : List Char) : Option (List Char) :=
  match l with
  | '/' :: rest =>
    let seg := rest.takeWhile (· != '/')
    if seg.isEmpty then none
    else
      match rest.dropWhile (· != '/') with
      | '/' :: rest3 =>
        let seg2 := rest3.takeWhile (· != '/')
        if opWords4.contains (seg2.map Char.toLower) then some seg else none
      | _ => none
  | _ => none

/-- The end-anchored trailing-id regex of script.js line 1624: after at
most one trailing slash, the string must end with slash, one of update,
get, delete (case-insensitively), slash, then a nonempty final segment;
the match yields that raw final segment. -/
def hrefIdMatch (l : List Char) : Option (List Char) :=
  let r := l.reverse
  let r1 := match r with
    | '/' :: t => t
    | _ => r
  let segR := r1.takeWhile (· != '/')
  if segR.isEmpty then none
  else
    match r1.dropWhile (· != '/') with
    | '/' :: rest2 =>
      let opR := rest2.takeWhile (· != '/')
      if opWords3.contains (opR.reverse.map Char.toLower) &&
          !(rest2.dropWhile (· != '/')).isEmpty then
        some segR.reverse
      else none
    | _ => none

/-- Strip one leading colon, the replace with the anchored colon regex
applied by getIdFromElement (script.js line 1627) and by the path
builders. -/
def stripLeadColon (s : String) : String :=
  match s.data with
  | ':' :: t => ⟨t⟩
  | _ => s

/-- Embeds getEntityFromElement (script.js lines 1596 to 1614): the
data-attribute chain first, then the create-btn id convention, then the
entity-path regex over the href, then the closest data-entity
ancestor. -/
def getEntityFromElement (el : RouterEl) : String :=
  let ent := jsOrS (optS el.dataOpenEntity) (jsOrS (optS el.dataEditEntity)
    (jsOrS (optS el.dataDeleteEntity) (optS el.dataEntity)))
  if !ent.isEmpty then ent
  else if createBtnTest el.idAttr then stripCreateBtnName el.idAttr
  else
    let href := optS el.href
    if !href.isEmpty then
      match hrefEntityMatch href.data with
      | some seg => ⟨seg⟩
      | none => optS el.closestDataEntity
    else optS el.closestDataEntity

/-- Embeds getIdFromElement (script.js lines 1615 to 1628): the data-id
chain first (element, then closest ancestor), then the trailing-id regex
over the href, and finally one leading colon stripped from whatever was
found. -/
def getIdFromElement (el : RouterEl) : String :=
  let id0 := jsOrS (optS el.dataId) (optS el.closestDataId)
  let id1 :=
    if id0.isEmpty then
      let href := optS el.href
      if href.isEmpty then ""
      else
        match hrefIdMatch href.data with
        | some seg => (⟨seg⟩ : String)
        | none => ""
    else id0
  stripLeadColon id1

/-- An element whose id follows the create-btn convention while its href
is an update link: the data of the C7 counterexample. -/
def createBtnUpdateEl : RouterEl :=
  { dataOpenEntity := none, dataEditEntity := none, dataDeleteEntity := none,
    dataEntity := none, idAttr := "create-foo-btn", href := some "/client/update/42/",
    closestDataEntity := none, dataId := none, closestDataId := none }

/-- C7 is falsified as stated: an element with no entity or id data
attributes whose href matches the entity pattern with first segment
client resolves to foo, because the create-btn id convention takes
precedence over the href. -/
theorem C7_counterexample :
    hrefEntityMatch "/client/update/42/".data = some "client".data ∧
    getEntityFromElement createBtnUpdateEl = "foo" := by
  constructor
  · decide
  · decide

/-- C7 amended: for an element with no entity or id data attributes on
itself or its ancestors and whose element id does not follow the
create-btn convention, an href matching the entity-path pattern resolves
the entity to the raw first path segment, and an href matching the
trailing-id pattern resolves the identifier to the trailing path segment
with a single leading colon stripped. -/
theorem C7_router_amended (el : RouterEl) (hrefS : String) (ent : List Char)
    (h1 : el.dataOpenEntity = none) (h2 : el.dataEditEntity = none)
    (h3 : el.dataDeleteEntity = none) (h4 : el.dataEntity = none)
    (h5 : createBtnTest el.idAttr = false)
    (h6 : el.href = some hrefS)
    (h7 : hrefEntityMatch hrefS.data = some ent) :
    getEntityFromElement el = ⟨ent⟩ ∧
    (el.dataId = none → el.closestDataId = none →
      ∀ idseg, hrefIdMatch hrefS.data = some idseg →
        getIdFromElement el = stripLeadColon ⟨idseg⟩) := by
  have hsne : hrefS ≠ "" := by
    intro hEq
    rw [hEq] at h7
    exact Option.noConfusion h7
  have hnemp : hrefS.isEmpty = false := by
    rw [Bool.eq_false_iff]
    intro habs
    exact hsne ((String.isEmpty_iff hrefS).mp habs)
  have e0 : ("" : String).isEmpty = true := rfl
  constructor
  · rw [getEntityFromElement, h1, h2, h3, h4, h6]
    simp [optS, jsOrS, e0, h5, hnemp, h7]
  · intro hd1 hd2 idseg hid
    rw [getIdFromElement, hd1, hd2, h6]
    simp [optS, jsOrS, e0, hnemp, hid]

/-- An update link with a colon-escaped identifier and no data
attributes. -/
def plainUpdateEl : RouterEl :=
  { dataOpenEntity := none, dataEditEntity := none, dataDeleteEntity := none,
    dataEntity := none, idAttr := "", href := some "/client/update/:42/",
    closestDataEntity := none, dataId := none, closestDataId := none }

/-- Witness for C7 at a concrete element: the entity is the first path
segment and the identifier is the trailing segment with its leading
colon stripped. -/
theorem C7_witness :
    getEntityFromElement plainUpdateEl = "client" ∧ getIdFromElement plainUpdateEl = "42" := by
  have h := C7_router_amended plainUpdateEl "/client/update/:42/" "client".data
    rfl rfl rfl rfl (by decide) rfl (by decide)
  refine ⟨h.1, ?_⟩
  have h2 := h.2 rfl rfl ":42".data (by decide)
  rw [h2]
  decide

/-! ## Modal injection: insertEntityModal (script.js lines 1168 to 1241) -/

/-- A fetched form fragment: whether its markup already carries the
entity-modal root container, and the fields of the entity form it
contains. -/
structure Fragment where
  hasModalRoot : Bool
  formFields : List FormField
  deriving DecidableEq, Repr

/-- The per-field pre-fill of script.js line 1210: an empty input
carrying the date-field class receives the formatted current date. -/
def prefillDate (t : String) (f : FormField) : FormField :=
  if f.isInput && f.hasDateClass && f.value.isEmpty then { f with value := t } else f

/-- Embeds the form-field effect of insertEntityModal (script.js lines
1168 to 1213): a fragment carrying its own modal root is installed
wholesale with no pre-fill; otherwise the skeleton path installs the
fields and, in Create mode only, pre-fills empty date-class inputs with
the formatted current date. -/
def insertEntityModal (mode : String) (t : String) (frag : Fragment) : List FormField :=
  if frag.hasModalRoot then frag.formFields
  else if mode == "Create" then frag.formFields.map (prefillDate t)
  else frag.formFields

/-- The display form of the current date built at script.js lines 1208
to 1209, with day and month zero-padded to two digits. -/
def todayDisplay (d m y : Nat) : String := pad2 d ++ "/" ++ pad2 m ++ "/" ++ toString y

/-- An empty date-class input inside a fragment that carries its own
modal root: the data of the C8 counterexample. -/
def emptyDateFieldCx : FormField :=
  { isInput := true, type := "text", name := "start", value := "", checked := false,
    disabled := false, visible := true, inHiddenTree := false, dataOptional := false,
    hasRequiredAttr := false, dataRequired := false, ariaRequired := false,
    hasDateClass := true, dataType := none, placeholder := "dd/mm/yyyy" }

/-- A create-mode fragment that already contains the modal root. -/
def rootFragmentCx : Fragment := { hasModalRoot := true, formFields := [emptyDateFieldCx] }

/-- C8 is falsified as stated: installing a create-mode fragment that
carries its own modal root leaves its empty date-class field empty, with
no current-date pre-fill. -/
theorem C8_counterexample :
    emptyDateFieldCx.isInput = true ∧ emptyDateFieldCx.hasDateClass = true ∧
    emptyDateFieldCx.value = "" ∧
    todayDisplay 12 10 2026 = "12/10/2026" ∧
    insertEntityModal "Create" "12/10/2026" rootFragmentCx = [emptyDateFieldCx] := by
  refine ⟨rfl, rfl, rfl, by decide, by decide⟩

/-- C8 amended: only the skeleton path pre-fills, and only in Create
mode: when the fragment does not carry its own modal root, installing it
in Create mode fills every empty date-class input with the current date
and leaves every other field unchanged; Edit mode never pre-fills, and a
fragment carrying its own modal root is installed without pre-fill. -/
theorem C8_insertEntityModal_amended (t : String) (frag : Fragment) :
    (frag.hasModalRoot = false →
      (insertEntityModal "Create" t frag).length = frag.formFields.length ∧
      ∀ i f, frag.formFields.get? i = some f →
        ((f.isInput && f.hasDateClass && f.value.isEmpty) = true →
          (insertEntityModal "Create" t frag).get? i = some { f with value := t }) ∧
        ((f.isInput && f.hasDateClass && f.value.isEmpty) = false →
          (insertEntityModal "Create" t frag).get? i = some f)) ∧
    insertEntityModal "Edit" t frag = frag.formFields ∧
    (frag.hasModalRoot = true → insertEntityModal "Create" t frag = frag.formFields) := by
  refine ⟨?_, ?_, ?_⟩
  · intro hroot
    have hm : insertEntityModal "Create" t frag = frag.formFields.map (prefillDate t) := by
      simp [insertEntityModal, hroot]
    rw [hm]
    refine ⟨List.length_map _ _, ?_⟩
    intro i f hget
    constructor
    · intro hcond
      rw [List.get?_map, hget]
      simp [prefillDate, hcond]
    · intro hcond
      rw [List.get?_map, hget]
      simp [prefillDate, hcond]
  · cases hroot : frag.hasModalRoot <;> simp [insertEntityModal, hroot]
  · intro hroot
    simp [insertEntityModal, hroot]

/-! ## C9: the date round trip -/

theorem isDig_not_ws (c : Char) (h : isDig c = true) : jsWhitespace c = false := by
  simp only [isDig, decide_eq_true_eq] at h
  simp only [jsWhitespace, decide_eq_false_iff_not]
  omega

/-- C9: normalizing a calendar-valid dd/mm/yyyy display value to the
yyyy-mm-dd transmission form and re-displaying it through the
formatDateFields rewrite reproduces the original string exactly. -/
theorem C9_date_roundtrip (s : String) (h : isValidDateDDMMYYYY s = true) :
    formatDateValue (normalizeDateForSubmit s) = s := by
  obtain ⟨l⟩ := s
  obtain ⟨a, b, c, d, e, f, g, h10, hdata, ha, hb, hc, hd, he, hf, hg, hh, -, -, -, -, -, -⟩ :=
    (validDateChars_iff l).mp h
  subst hdata
  have hws1 : jsWhitespace a = false := isDig_not_ws a ha
  have hws10 : jsWhitespace h10 = false := isDig_not_ws h10 hh
  have htl : jsTrimList [a, b, '/', c, d, '/', e, f, g, h10] =
      [a, b, '/', c, d, '/', e, f, g, h10] := by
    rw [jsTrimList, List.dropWhile_cons, if_neg (by simp [hws1])]
    rw [show [a, b, '/', c, d, '/', e, f, g, h10].reverse =
      [h10, g, f, e, '/', d, c, '/', b, a] from rfl]
    rw [List.dropWhile_cons, if_neg (by simp [hws10])]
    rfl
  have hnorm : normalizeDateForSubmit ⟨[a, b, '/', c, d, '/', e, f, g, h10]⟩ =
      ⟨[e, f, g, h10, '-', c, d, '-', a, b]⟩ := by
    rw [normalizeDateForSubmit]
    rw [show (⟨[a, b, '/', c, d, '/', e, f, g, h10]⟩ : String).data =
      [a, b, '/', c, d, '/', e, f, g, h10] from rfl, htl]
    simp [ddmmToYmdChars, ha, hb, hc, hd, he, hf, hg, hh]
  rw [hnorm, formatDateValue]
  have hcont : ([e, f, g, h10, '-', c, d, '-', a, b].contains '-') = true :=
    List.elem_eq_true_of_mem (by simp)
  rw [if_pos (by simp [hcont])]
  simp [ymdToDdmmChars, ha, hb, hc, hd, he, hf, hg, hh]

/-- Witness for C9 at the leap-day example. -/
theorem C9_witness :
    isValidDateDDMMYYYY "29/02/2024" = true ∧
    formatDateValue (normalizeDateForSubmit "29/02/2024") = "29/02/2024" :=
  ⟨by decide, C9_date_roundtrip "29/02/2024" (by decide)⟩

/-! ## C10: deleteEntity and the master-role guard
(script.js lines 1331 to 1378, 524 to 527) -/

/-- The visible effect of one deleteEntity invocation up to the network
request: cancelled at the confirmation prompt, refused with an alert by
the master-role or user-permissions guard, or a POST to the delete
endpoint built from the normalized entity segment and identifier. -/
inductive DeleteAction where
  | cancelled
  | masterRefused (alertMsg : String)
  | userPermRefused (alertMsg : String)
  | request (entitySeg idSeg : String)
  deriving DecidableEq, Repr

/-- Embeds getCurrentRole (script.js lines 524 to 527): the body
data-role attribute, absent values as the empty string, lowercased. -/
def getCurrentRole (bodyRole : Option String) : String := lowerS (optS bodyRole)

/-- Embeds isUserPermEntity (script.js lines 1244 to 1246). -/
def isUserPermEntity (ent : String) : Bool :=
  lowerS ent == "userpermission" || lowerS ent == "userpermissions"

/-- Whitespace removal and lowercasing applied to the entity path
segment (script.js line 1338). -/
def stripSpacesLower (s : String) : String :=
  ⟨(s.data.filter (fun c => !jsWhitespace c)).map Char.toLower⟩

/-- Embeds deleteEntity (script.js lines 1331 to 1339) up to the fetch:
the confirmation prompt, the master-role guard, the user-permissions
guard, then the request with normalized entity and identifier. -/
def deleteEntity (bodyRole : Option String) (confirmed : Bool)
    (entity idArg : String) : DeleteAction :=
  if !confirmed then .cancelled
  else if getCurrentRole bodyRole == "master" then
    .masterRefused "Delete is disabled for Master role."
  else if isUserPermEntity entity then
    .userPermRefused "This is a settings page with no table. Use the User Permissions UI."
  else .request (stripSpacesLower entity) (stripLeadColon idArg)

/-- C10: whenever the body data-role is master (case-insensitively),
deleteEntity refuses with the master alert and issues no request for any
entity and identifier, even after the user confirmed the prompt. -/
theorem C10_master_delete_refused (bodyRole : Option String) (entity idArg : String)
    (h : getCurrentRole bodyRole = "master") :
    deleteEntity bodyRole true entity idArg =
      .masterRefused "Delete is disabled for Master role." ∧
    ∀ confirmed e i, deleteEntity bodyRole confirmed entity idArg ≠ .request e i := by
  have h1 : deleteEntity bodyRole true entity idArg =
      .masterRefused "Delete is disabled for Master role." := by
    rw [deleteEntity]
    simp [h]
  refine ⟨h1, ?_⟩
  intro confirmed e i hp
  cases confirmed with
  | false =>
    rw [deleteEntity] at hp
    simp at hp
  | true =>
    rw [h1] at hp
    cases hp

/-- Witness for C10 with an uppercase role attribute. -/
theorem C10_witness :
    deleteEntity (some "MASTER") true "client" "42" =
      .masterRefused "Delete is disabled for Master role." :=
  (C10_master_delete_refused (some "MASTER") "client" "42" (by decide)).1
